import Mathlib

/-!
Verification of `tcx2csv.py`: a one-shot converter from a TCX (Training
Center XML) activity file to a flat CSV table, one row per trackpoint,
with `New Lap` / `New Track` boundary lines.

The XML document is embedded as a rose tree of elements.  An
`xml.etree.ElementTree` tag string is either `Local` (no namespace) or
`\x7buri\x7dLocal`; since XML names and namespace URIs cannot contain braces,
the tag is represented structurally as a pair of the namespace URI
(`""` meaning no namespace, exactly the `namespace = ''` case of the
source) and the local name.  `Element.find` with a plain tag, a
`\x7buri\x7d`-prefixed tag, or the `\x7b*\x7d` wildcard used by the source is
represented by a `TagQuery` that is either `strict ns local`
(string-equality on the serialized tag, as the source performs) or
`anyNS local` (ElementTree's any-namespace wildcard, matching on the
local name only).
-/

/-- An XML element: namespace URI (`""` = no namespace), local name,
optional text content, and the list of child elements in document order. -/
inductive Element where
  | mk (ns : String) (name : String) (text : Option String) (children : List Element)
deriving Repr

def Element.ns : Element → String
  | .mk n _ _ _ => n

def Element.name : Element → String
  | .mk _ n _ _ => n

def Element.text : Element → Option String
  | .mk _ _ t _ => t

def Element.children : Element → List Element
  | .mk _ _ _ c => c

/-- The serialized `ElementTree` tag of an element, as the Python code sees
it: `\x7buri\x7dLocal` when namespaced, `Local` otherwise.  Used only in the
`Unknown root found` message, which prints `root.tag`. -/
def Element.tagString (e : Element) : String :=
  (if e.ns == "" then "" else "\x7b" ++ e.ns ++ "\x7d") ++ e.name

/-- A tag argument to `Element.find`/`Element.iter`.  `strict ns local`
stands for the string `namespace + key` built by `main` (where `namespace`
is `\x7buri\x7d` or `''`); `anyNS local` stands for the wildcard string
`"\x7b*\x7d" + key` used in `extract_trackpoint_data`. -/
inductive TagQuery where
  | strict (ns : String) (local_name : String)
  | anyNS (local_name : String)
deriving Repr

/-- Whether an element's tag matches a query: the strict form compares the
serialized tags (namespace and local name both equal); the wildcard form
compares local names only ("any namespace, or none"). -/
def TagQuery.matchesTag : TagQuery → Element → Bool
  | .strict ns n, e => e.ns == ns && e.name == n
  | .anyNS n, e => e.name == n

/-- Models `ElementTree.Element.find(tag)`: the first direct child whose tag
matches, or `None`. -/
def Element.find (e : Element) (q : TagQuery) : Option Element :=
  e.children.find? (fun c => q.matchesTag c)

mutual

/-- All elements of the subtree rooted at `e` (the element itself first,
then descendants), in document order — the iteration order of
`ElementTree.Element.iter()`. -/
def Element.subtree : Element → List Element
  | .mk ns name text children => .mk ns name text children :: Element.subtreeAll children
termination_by structural e => e

def Element.subtreeAll : List Element → List Element
  | [] => []
  | c :: cs => Element.subtree c ++ Element.subtreeAll cs
termination_by structural l => l

end

/-- Models `ElementTree.Element.iter(tag)`: the elements of the subtree (self
included) whose tag matches, in document order. -/
def Element.iter (e : Element) (q : TagQuery) : List Element :=
  (e.subtree).filter (fun x => q.matchesTag x)

/-- Python `str.strip()` whitespace (the ASCII whitespace characters;
TCX text content does not use the further Unicode ones). -/
def isPyWhitespace (c : Char) : Bool :=
  c == ' ' || c == '\t' || c == '\n' || c == '\x0d' || c == '\x0b' || c == '\x0c'

/-- Python `str.strip()`: remove leading and trailing whitespace. -/
def pyStrip (s : String) : String :=
  String.mk (((s.data.dropWhile isPyWhitespace).reverse.dropWhile isPyWhitespace).reverse)

/-- A value of the nested `attributes` dictionary: a column name at a
leaf, or a nested level. `AttributeNestingLevel` is the (ordered)
dictionary itself, as the source's `dict[str, str | dict]`. -/
inductive AttrValue where
  | leaf (column : String)
  | nested (sub : List (String × AttrValue))
deriving Repr

abbrev AttributeNestingLevel := List (String × AttrValue)

/-- The fixed field map `attributes` of `tcx2csv.py`. -/
def attributes : AttributeNestingLevel := [
  ("Time", .leaf "Time"),
  ("Position", .nested [
    ("LatitudeDegrees", .leaf "LatitudeDegrees"),
    ("LongitudeDegrees", .leaf "LongitudeDegrees")]),
  ("AltitudeMeters", .leaf "AltitudeMeters"),
  ("HeartRateBpm", .nested [
    ("Value", .leaf "HRBpm")]),
  ("Cadence", .leaf "Cadence"),
  ("Extensions", .nested [
    ("TPX", .nested [
      ("Speed", .leaf "Speed"),
      ("Watts", .leaf "Watts"),
      ("Grade", .leaf "Grade")])])]

mutual

/-- Source `extract_headers`: pre-order flattening of the column names (the
dict values at the leaves), in dictionary order.  The loop body
(`if isinstance(value, dict)` branch per entry) is the `_value` helper. -/
def extract_headers : AttributeNestingLevel → List String
  | [] => []
  | (_, v) :: rest => extract_headers_value v ++ extract_headers rest
termination_by structural d => d

def extract_headers_value : AttrValue → List String
  | .nested sub => extract_headers sub
  | .leaf col => [col]
termination_by structural v => v

end

/-- Source `get_element_text(element, tag)`: yields `''` when the element is `None`,
the child is absent, or the child's text is `None` or `''`; otherwise the
child's stripped text. -/
def get_element_text (element : Option Element) (q : TagQuery) : String :=
  match element with
  | none => ""
  | some e =>
    match e.find q with
    | none => ""
    | some child =>
      match child.text with
      | none => ""
      | some t => if t == "" then "" else pyStrip t

mutual

/-- The recursive `extract_attribute` inside `extract_trackpoint_data`:
walks the dictionary in order; at a nested value it recurses into the
same-named child found with the `\x7b*\x7d` wildcard (or `None` when the
element is `None` or the child absent); at a leaf it appends
`get_element_text` of the same-named wildcard child. -/
def extract_attribute (element : Option Element) : AttributeNestingLevel → List String
  | [] => []
  | (key, v) :: rest =>
    extract_attribute_value element key v ++ extract_attribute element rest
termination_by structural d => d

/-- One entry of the `extract_attribute` loop: the `isinstance(value, dict)`
branch recurses into the same-named wildcard child (absent context stays
absent); the leaf branch appends one `get_element_text` value. -/
def extract_attribute_value (element : Option Element) (key : String) : AttrValue → List String
  | .nested sub =>
    extract_attribute
      (match element with
       | some e => e.find (.anyNS key)
       | none => none) sub
  | .leaf _ => [get_element_text element (.anyNS key)]
termination_by structural v => v

end

/-- Source `extract_trackpoint_data(trackpoint)` with the default `attrs`. -/
def extract_trackpoint_data (trackpoint : Option Element) : List String :=
  extract_attribute trackpoint attributes

/-- The result of the structural phase of `main` on a parsed tree:
either an abort with the printed message (the early `return`s at the
root / Activities / Activity checks, all before the output file is
opened), or the list of lines written to the output file (each written
with a terminating newline). -/
inductive RunOutcome where
  | abort (msg : String)
  | output (lines : List String)
deriving Repr

/-- The lines a `RunOutcome` puts into the output file (`none` when the
run aborted before opening it). -/
def RunOutcome.fileLines : RunOutcome → Option (List String)
  | .abort _ => none
  | .output ls => some ls

/-- The body of `main` after a successful parse, from the namespace
extraction through the write loop.  The source extracts `namespace` from
`root.tag` with the regex `^(\x7b.*\x7d)` — structurally, `root.ns` — and the
root check `root.tag != namespace + 'TrainingCenterDatabase'` is exactly
a check of the root's local name.  `Activities`/`Activity` lookup and the
`Lap`/`Track`/`Trackpoint` iteration use the strict `namespace + key`
tags; trackpoint field extraction uses the `\x7b*\x7d` wildcard. -/
def processTree (root : Element) : RunOutcome :=
  let ns := root.ns
  if root.name != "TrainingCenterDatabase" then
    .abort ("Unknown root found: " ++ root.tagString)
  else
    match root.find (.strict ns "Activities") with
    | none => .abort "Unable to find Activities under root"
    | some activities =>
      if activities.children.length == 0 then
        .abort "Unable to find Activities under root"
      else
        match activities.find (.strict ns "Activity") with
        | none => .abort "Unable to find Activity under Activities"
        | some activity =>
          if activity.children.length == 0 then
            .abort "Unable to find Activity under Activities"
          else
            .output (String.intercalate "," (extract_headers attributes) ::
              (activity.iter (.strict ns "Lap")).flatMap (fun lap =>
                "New Lap" :: (lap.iter (.strict ns "Track")).flatMap (fun track =>
                  "New Track" :: (track.iter (.strict ns "Trackpoint")).map (fun tp =>
                    String.intercalate "," (extract_trackpoint_data (some tp))))))

/-- The observable effect of one run of `main`: the messages printed to
standard output and the content of the output file (`none`: the file was
never opened, so a pre-existing file is untouched). -/
structure MainObs where
  printed : List String
  fileWritten : Option (List String)
deriving Repr

/-- The `try` body of `main`.  Fallible external operations are passed in
as `Except` values: `parsed` is `et.parse(input_file)` (error = the raised
exception's message) and `openResult` is `open(output_file, 'w')`.  An
`Except.error` models an exception propagating out of the body. -/
def mainBody (parsed : Except String Element) (openResult : Except String Unit) :
    Except String MainObs := do
  let root ← parsed
  match processTree root with
  | .abort msg => pure ⟨[msg], none⟩
  | .output lines => do
    let _ ← openResult
    pure ⟨[], some lines⟩

/-- Source `main(input_file, output_file)`: the whole body runs under a single
`try/except Exception` that prints `Error processing file: ...` and
returns normally. -/
def main_run (parsed : Except String Element) (openResult : Except String Unit) : MainObs :=
  match mainBody parsed openResult with
  | .ok obs => obs
  | .error e => ⟨["Error processing file: " ++ e], none⟩

/-- The number of comma-separated fields of a CSV line (no
quoting/escaping exists in this format): one more than the number of
comma characters. -/
def commaFieldCount (s : String) : Nat :=
  s.data.count ',' + 1

mutual

/-- Replace the namespace of every element of a tree by `a` (`""` = no
namespace): `setNS a doc` and `setNS b doc` are two documents identical
except for the namespace all their elements live under. -/
def setNS (a : String) : Element → Element
  | .mk _ name text children => .mk a name text (setNSAll a children)
termination_by structural e => e

def setNSAll (a : String) : List Element → List Element
  | [] => []
  | c :: cs => setNS a c :: setNSAll a cs
termination_by structural l => l

end

/-- The subtree elements whose local name is `n`, ignoring namespaces —
the namespace-independent skeleton of an `iter` traversal. -/
def Element.subtreeByName (e : Element) (n : String) : List Element :=
  (e.subtree).filter (fun x => x.name == n)

/-- The first direct child with local name `n`, ignoring namespaces. -/
def Element.findByName (e : Element) (n : String) : Option Element :=
  e.children.find? (fun c => c.name == n)

/-- The namespace-independent skeleton of `processTree`: what the run
produces as output-file lines, phrased purely in terms of local names.
Used to show that re-namespacing a whole document does not change the
produced lines. -/
def skeletonLines (doc : Element) : Option (List String) :=
  if doc.name != "TrainingCenterDatabase" then none
  else
    match doc.findByName "Activities" with
    | none => none
    | some activities =>
      if activities.children.length == 0 then none
      else
        match activities.findByName "Activity" with
        | none => none
        | some activity =>
          if activity.children.length == 0 then none
          else
            some (String.intercalate "," (extract_headers attributes) ::
              (activity.subtreeByName "Lap").flatMap (fun lap =>
                "New Lap" :: (lap.subtreeByName "Track").flatMap (fun track =>
                  "New Track" :: (track.subtreeByName "Trackpoint").map (fun tp =>
                    String.intercalate "," (extract_trackpoint_data (some tp))))))

/-- A trackpoint whose `Time` text contains a comma: values are emitted
unescaped, so the written row gains a comma-separated field. -/
def c1Trackpoint : Element := .mk "" "Trackpoint" none [
  .mk "" "Time" (some "a,b") []]

/-- A document that reaches the row-writing phase and emits the row of
`c1Trackpoint`. -/
def c1Doc : Element := .mk "" "TrainingCenterDatabase" none [
  .mk "" "Activities" none [
    .mk "" "Activity" none [
      .mk "" "Lap" none [
        .mk "" "Track" none [c1Trackpoint]]]]]

/-- The trackpoint of the spec's worked example: `Time`,
`Position/LatitudeDegrees`, `Position/LongitudeDegrees`,
`HeartRateBpm/Value` present; `AltitudeMeters`, `Cadence`, `Extensions`
absent. -/
def c2Trackpoint : Element := .mk "N" "Trackpoint" none [
  .mk "N" "Time" (some "2024-01-01T00:00:00Z") [],
  .mk "N" "Position" none [
    .mk "N" "LatitudeDegrees" (some "1.5") [],
    .mk "N" "LongitudeDegrees" (some "2.5") []],
  .mk "N" "HeartRateBpm" none [
    .mk "N" "Value" (some "150") []]]

/-- A minimal document reaching the write phase (for the header-line
witness). -/
def c4Doc : Element := .mk "ns4" "TrainingCenterDatabase" none [
  .mk "ns4" "Activities" none [
    .mk "ns4" "Activity" none [
      .mk "ns4" "Lap" none []]]]

/-- A concrete trackpoint for the 2-lap/1-track/2-trackpoint layout
witness. -/
def c5Trackpoint : Element := .mk "ns5" "Trackpoint" none [
  .mk "ns5" "Time" (some "t0") []]

/-- A namespaced document whose `Activity` contains a `Lap`-named element
in a different namespace (here: no namespace at all): the strict
`namespace + 'Lap'` iteration skips it entirely. -/
def c10Doc : Element := .mk "M" "TrainingCenterDatabase" none [
  .mk "M" "Activities" none [
    .mk "M" "Activity" none [
      .mk "" "Lap" none [
        .mk "" "Track" none [
          .mk "" "Trackpoint" none [.mk "" "Time" (some "x") []]]]]]]

/-- Per-level extraction always yields one value per leaf of the field
map: the value list and the header list have the same length for every
element context (present or absent). -/
theorem extract_attribute_length (d : AttributeNestingLevel) :
    ∀ element, (extract_attribute element d).length = (extract_headers d).length := by
  refine extract_headers.induct
    (fun d => ∀ element, (extract_attribute element d).length = (extract_headers d).length)
    (fun v => ∀ element key,
      (extract_attribute_value element key v).length = (extract_headers_value v).length)
    ?_ ?_ ?_ ?_ d
  · intro sub ih element key
    simp [extract_attribute_value, extract_headers_value, ih]
  · intro col element key
    simp [extract_attribute_value, extract_headers_value]
  · intro element
    simp [extract_attribute, extract_headers]
  · intro k v rest ih1 ih2 element
    simp [extract_attribute, extract_headers, ih1, ih2]

/-- Extraction in an absent element context yields the empty string at
every leaf: one `""` per header of the level. -/
theorem extract_attribute_absent (d : AttributeNestingLevel) :
    extract_attribute none d = List.replicate (extract_headers d).length "" := by
  refine extract_headers.induct
    (fun d => extract_attribute none d = List.replicate (extract_headers d).length "")
    (fun v => ∀ key,
      extract_attribute_value none key v = List.replicate (extract_headers_value v).length "")
    ?_ ?_ ?_ ?_ d
  · intro sub ih key
    simpa [extract_attribute_value, extract_headers_value] using ih
  · intro col key
    simp [extract_attribute_value, extract_headers_value, get_element_text]
  · rfl
  · intro k v rest ih1 ih2
    simp only [extract_attribute, extract_headers, ih1, ih2, List.length_append]
    rw [List.replicate_add]

/-- C1 — counterexample.  `c1Doc` reaches the row-writing phase and emits
a data row whose `Time` value contains a comma; values are written
unescaped, so the row has 10 comma-separated fields while the header row
has 9. -/
theorem c1_field_count_counterexample :
    processTree c1Doc = RunOutcome.output
      ["Time,LatitudeDegrees,LongitudeDegrees,AltitudeMeters,HRBpm,Cadence,Speed,Watts,Grade",
       "New Lap", "New Track", "a,b,,,,,,,,"] ∧
    commaFieldCount "a,b,,,,,,,," = 10 ∧
    commaFieldCount
      "Time,LatitudeDegrees,LongitudeDegrees,AltitudeMeters,HRBpm,Cadence,Speed,Watts,Grade" = 9 :=
  ⟨rfl, by decide, by decide⟩

/-- C1 — amended.  Every emitted data row is the comma-join of exactly as
many extracted values as the header row has fields (9, one per leaf of
the field map), regardless of which optional sub-elements the Trackpoint
contains; the literal comma-separated field count of the written line
coincides only when no extracted value itself contains a comma (no CSV
escaping is performed). -/
theorem c1_row_value_count :
    (∀ trackpoint : Option Element,
      (extract_trackpoint_data trackpoint).length = (extract_headers attributes).length) ∧
    (extract_headers attributes).length = 9 :=
  ⟨fun trackpoint => extract_attribute_length attributes trackpoint, rfl⟩

/-- C2 — counterexample.  For the spec's worked trackpoint the emitted
row is not the spec's string: that string has 9 commas (10 fields),
one trailing comma too many. -/
theorem c2_example_row_counterexample :
    String.intercalate "," (extract_trackpoint_data (some c2Trackpoint)) ≠
      "2024-01-01T00:00:00Z,1.5,2.5,,150,,,,," := by
  decide

/-- C2 — amended.  For a Trackpoint with `Time=2024-01-01T00:00:00Z`,
`Position/LatitudeDegrees=1.5`, `Position/LongitudeDegrees=2.5`,
`HeartRateBpm/Value=150`, and no `AltitudeMeters`, `Cadence` or
`Extensions`, the emitted row is exactly
`2024-01-01T00:00:00Z,1.5,2.5,,150,,,,` — 9 values joined by 8 commas,
with empty cells for AltitudeMeters, Cadence, Speed, Watts and Grade, in
header order. -/
theorem c2_example_row :
    String.intercalate "," (extract_trackpoint_data (some c2Trackpoint)) =
      "2024-01-01T00:00:00Z,1.5,2.5,,150,,,," := by
  rfl

/-- C3 — at an interior node of the field map whose same-named child is
absent, extraction yields the empty string at every leaf of that subtree
(one `""` per header of the subtree) and leaves the remaining cells
exactly as they are without the node; no error is raised (the function
is total by construction). -/
theorem c3_absent_interior_node (e : Element) (key : String) (sub rest : AttributeNestingLevel)
    (h : e.find (.anyNS key) = none) :
    extract_attribute (some e) ((key, AttrValue.nested sub) :: rest) =
      List.replicate (extract_headers sub).length "" ++ extract_attribute (some e) rest := by
  simp only [extract_attribute, extract_attribute_value, h, extract_attribute_absent]

/-- C3 — witness: a childless Trackpoint, the `Position` interior node
absent, one further leaf after it. -/
theorem c3_absent_interior_node_witness :
    Element.find (.mk "" "Trackpoint" none []) (.anyNS "Position") = none ∧
    extract_attribute (some (.mk "" "Trackpoint" none []))
      [("Position", AttrValue.nested [("LatitudeDegrees", AttrValue.leaf "LatitudeDegrees")]),
       ("AltitudeMeters", AttrValue.leaf "AltitudeMeters")] =
      List.replicate
        (extract_headers [("LatitudeDegrees", AttrValue.leaf "LatitudeDegrees")]).length "" ++
        extract_attribute (some (.mk "" "Trackpoint" none []))
          [("AltitudeMeters", AttrValue.leaf "AltitudeMeters")] :=
  ⟨rfl, c3_absent_interior_node _ "Position" _ _ rfl⟩

/-- C4 — whenever a run reaches the write phase, the first output line is
exactly the nine column names in fixed order joined by single commas. -/
theorem c4_header_line (root : Element) (lines : List String)
    (h : processTree root = RunOutcome.output lines) :
    lines.head? =
      some "Time,LatitudeDegrees,LongitudeDegrees,AltitudeMeters,HRBpm,Cadence,Speed,Watts,Grade" := by
  simp only [processTree] at h
  split at h
  · simp at h
  · split at h
    · simp at h
    · split at h
      · simp at h
      · split at h
        · simp at h
        · split at h
          · simp at h
          · injection h with h2
            subst h2
            rfl

/-- C4 — witness: a two-line run whose first line is the header. -/
theorem c4_header_line_witness :
    processTree c4Doc = RunOutcome.output
      ["Time,LatitudeDegrees,LongitudeDegrees,AltitudeMeters,HRBpm,Cadence,Speed,Watts,Grade",
       "New Lap"] ∧
    (["Time,LatitudeDegrees,LongitudeDegrees,AltitudeMeters,HRBpm,Cadence,Speed,Watts,Grade",
       "New Lap"] : List String).head? =
      some "Time,LatitudeDegrees,LongitudeDegrees,AltitudeMeters,HRBpm,Cadence,Speed,Watts,Grade" :=
  ⟨rfl, c4_header_line c4Doc _ rfl⟩

/-- C6 — for every parsed document whose root's local name is not
`TrainingCenterDatabase` (whatever its namespace, if any), the run prints
`Unknown root found:` followed by the root's tag and returns normally,
never opening the output file and emitting no rows. -/
theorem c6_unknown_root (root : Element) (openResult : Except String Unit)
    (h : root.name ≠ "TrainingCenterDatabase") :
    main_run (Except.ok root) openResult =
      ⟨["Unknown root found: " ++ root.tagString], none⟩ := by
  have hb : (root.name != "TrainingCenterDatabase") = true := by
    simpa [bne_iff_ne] using h
  simp [main_run, mainBody, processTree, hb, Bind.bind, Except.bind, Pure.pure, Except.pure]

/-- C6 — witness: a namespaced root named `Foo`. -/
theorem c6_unknown_root_witness :
    (Element.mk "W6" "Foo" none []).name ≠ "TrainingCenterDatabase" ∧
    main_run (Except.ok (Element.mk "W6" "Foo" none [])) (Except.ok ()) =
      ⟨["Unknown root found: \x7bW6\x7dFoo"], none⟩ :=
  ⟨by decide, c6_unknown_root (Element.mk "W6" "Foo" none []) (Except.ok ()) (by decide)⟩

/-- C7 — every structural-mismatch abort (unknown root, Activities absent
or childless, Activity absent or childless) happens before the output
file is opened: the run only prints the message, and the output file is
never created or touched, whatever the open operation would have done. -/
theorem c7_abort_leaves_file_untouched (root : Element) (openResult : Except String Unit)
    (msg : String) (h : processTree root = RunOutcome.abort msg) :
    main_run (Except.ok root) openResult = ⟨[msg], none⟩ := by
  simp [main_run, mainBody, h, Bind.bind, Except.bind, Pure.pure, Except.pure]

/-- C7 — witness: a root with no `Activities` child. -/
theorem c7_abort_leaves_file_untouched_witness :
    processTree (Element.mk "" "TrainingCenterDatabase" none []) =
      RunOutcome.abort "Unable to find Activities under root" ∧
    main_run (Except.ok (Element.mk "" "TrainingCenterDatabase" none []))
        (Except.error "disk full") =
      ⟨["Unable to find Activities under root"], none⟩ :=
  ⟨rfl, c7_abort_leaves_file_untouched _ (Except.error "disk full") _ rfl⟩

/-- C8 — any exception propagating out of the body of `main` (parse
failure, open/write failure) is caught by the single top-level handler,
which prints `Error processing file:` with the exception's message; the
run returns normally with no output file written. -/
theorem c8_top_level_catch (parsed : Except String Element) (openResult : Except String Unit)
    (e : String) (h : mainBody parsed openResult = Except.error e) :
    main_run parsed openResult = ⟨["Error processing file: " ++ e], none⟩ := by
  simp [main_run, h]

/-- C8 — witness: a parse failure. -/
theorem c8_top_level_catch_witness :
    mainBody (Except.error "boom") (Except.ok ()) = Except.error "boom" ∧
    main_run (Except.error "boom") (Except.ok ()) =
      ⟨["Error processing file: boom"], none⟩ :=
  ⟨rfl, c8_top_level_catch (Except.error "boom") (Except.ok ()) "boom" rfl⟩

@[simp] theorem Element.ns_mk (a b : String) (t : Option String) (c : List Element) :
    (Element.mk a b t c).ns = a := rfl

@[simp] theorem Element.name_mk (a b : String) (t : Option String) (c : List Element) :
    (Element.mk a b t c).name = b := rfl

@[simp] theorem Element.text_mk (a b : String) (t : Option String) (c : List Element) :
    (Element.mk a b t c).text = t := rfl

@[simp] theorem Element.children_mk (a b : String) (t : Option String) (c : List Element) :
    (Element.mk a b t c).children = c := rfl

@[simp] theorem TagQuery.matchesTag_strict (ns n : String) (e : Element) :
    TagQuery.matchesTag (.strict ns n) e = (e.ns == ns && e.name == n) := rfl

@[simp] theorem TagQuery.matchesTag_anyNS (n : String) (e : Element) :
    TagQuery.matchesTag (.anyNS n) e = (e.name == n) := rfl

/-- C10 — `Lap`/`Track`/`Trackpoint` iteration matches the exact
(root-derived) namespace: every element an iteration with a strict
`namespace + name` tag visits carries exactly that namespace and name,
and a `Lap`-named element under a different namespace (here: none, under
a namespaced root) is skipped entirely — `c10Doc` produces the header
line only, no boundary lines and no data rows, although leaf-field
lookup inside a matched Trackpoint would be namespace-agnostic. -/
theorem c10_strict_namespace_iteration :
    (∀ (e : Element) (ns n : String),
      ((e.iter (.strict ns n)).all (fun x => x.ns == ns && x.name == n)) = true) ∧
    processTree c10Doc = RunOutcome.output
      ["Time,LatitudeDegrees,LongitudeDegrees,AltitudeMeters,HRBpm,Cadence,Speed,Watts,Grade"] := by
  constructor
  · intro e ns n
    simp only [Element.iter, List.all_eq_true, List.mem_filter, TagQuery.matchesTag_strict]
    intro x hx
    exact hx.2
  · rfl

/-- C5 — a document holding exactly 2 Lap elements, each holding 1 Track,
each holding 2 Trackpoints (the trackpoints contributing no further
`Lap`/`Track`/`Trackpoint` matches of their own), produces exactly 9
lines: header, then `New Lap`, `New Track` and two data lines per lap, in
document order. -/
theorem c5_two_laps (ns : String) (tp1 tp2 tp3 tp4 : Element)
    (h1 : tp1.iter (.strict ns "Lap") = []) (h2 : tp1.iter (.strict ns "Track") = [])
    (h3 : tp1.iter (.strict ns "Trackpoint") = [tp1])
    (h4 : tp2.iter (.strict ns "Lap") = []) (h5 : tp2.iter (.strict ns "Track") = [])
    (h6 : tp2.iter (.strict ns "Trackpoint") = [tp2])
    (h7 : tp3.iter (.strict ns "Lap") = []) (h8 : tp3.iter (.strict ns "Track") = [])
    (h9 : tp3.iter (.strict ns "Trackpoint") = [tp3])
    (h10 : tp4.iter (.strict ns "Lap") = []) (h11 : tp4.iter (.strict ns "Track") = [])
    (h12 : tp4.iter (.strict ns "Trackpoint") = [tp4]) :
    processTree (.mk ns "TrainingCenterDatabase" none [
      .mk ns "Activities" none [
        .mk ns "Activity" none [
          .mk ns "Lap" none [.mk ns "Track" none [tp1, tp2]],
          .mk ns "Lap" none [.mk ns "Track" none [tp3, tp4]]]]]) =
      RunOutcome.output
        [String.intercalate "," (extract_headers attributes),
         "New Lap", "New Track",
         String.intercalate "," (extract_trackpoint_data (some tp1)),
         String.intercalate "," (extract_trackpoint_data (some tp2)),
         "New Lap", "New Track",
         String.intercalate "," (extract_trackpoint_data (some tp3)),
         String.intercalate "," (extract_trackpoint_data (some tp4))] := by
  simp only [Element.iter, TagQuery.matchesTag_strict] at h1 h2 h3 h4 h5 h6 h7 h8 h9 h10 h11 h12
  simp [processTree, Element.iter, Element.find, Element.subtree, Element.subtreeAll,
    List.find?, List.filter_cons, List.filter_append,
    h1, h2, h3, h4, h5, h6, h7, h8, h9, h10, h11, h12]

/-- C5 — witness: the concrete 2-lap/1-track/2-trackpoint document built
from `c5Trackpoint`, giving the 9 lines in order. -/
theorem c5_two_laps_witness :
    c5Trackpoint.iter (.strict "ns5" "Lap") = [] ∧
    c5Trackpoint.iter (.strict "ns5" "Trackpoint") = [c5Trackpoint] ∧
    processTree (.mk "ns5" "TrainingCenterDatabase" none [
      .mk "ns5" "Activities" none [
        .mk "ns5" "Activity" none [
          .mk "ns5" "Lap" none [.mk "ns5" "Track" none [c5Trackpoint, c5Trackpoint]],
          .mk "ns5" "Lap" none [.mk "ns5" "Track" none [c5Trackpoint, c5Trackpoint]]]]]) =
      RunOutcome.output
        ["Time,LatitudeDegrees,LongitudeDegrees,AltitudeMeters,HRBpm,Cadence,Speed,Watts,Grade",
         "New Lap", "New Track", "t0,,,,,,,,", "t0,,,,,,,,",
         "New Lap", "New Track", "t0,,,,,,,,", "t0,,,,,,,,"] :=
  ⟨rfl, rfl,
    c5_two_laps "ns5" c5Trackpoint c5Trackpoint c5Trackpoint c5Trackpoint
      rfl rfl rfl rfl rfl rfl rfl rfl rfl rfl rfl rfl⟩

theorem setNSAll_map (a : String) (l : List Element) : setNSAll a l = l.map (setNS a) := by
  induction l with
  | nil => rfl
  | cons c cs ih => simp [setNSAll, ih]

@[simp] theorem setNS_ns (a : String) (e : Element) : (setNS a e).ns = a := by
  cases e; rfl

@[simp] theorem setNS_name (a : String) (e : Element) : (setNS a e).name = e.name := by
  cases e; rfl

@[simp] theorem setNS_text (a : String) (e : Element) : (setNS a e).text = e.text := by
  cases e; rfl

theorem setNS_children (a : String) (e : Element) :
    (setNS a e).children = e.children.map (setNS a) := by
  cases e; simp [setNS, setNSAll_map]

/-- A wildcard `find` is exactly a local-name `find`. -/
theorem find_anyNS_eq_findByName (e : Element) (n : String) :
    e.find (.anyNS n) = e.findByName n := rfl

theorem find_anyNS_setNS (a : String) (e : Element) (n : String) :
    (setNS a e).find (.anyNS n) = (e.findByName n).map (setNS a) := by
  simp only [Element.find, setNS_children, List.find?_map]
  rw [show ((fun c => TagQuery.matchesTag (.anyNS n) c) ∘ setNS a) = (fun c => c.name == n) from ?_]
  · rfl
  · funext c
    simp [TagQuery.matchesTag]

/-- On a uniformly re-namespaced element, a strict `find` in that
namespace is a local-name `find` on the skeleton. -/
theorem find_strict_setNS (a : String) (e : Element) (n : String) :
    (setNS a e).find (.strict a n) = (e.findByName n).map (setNS a) := by
  simp only [Element.find, setNS_children, List.find?_map]
  rw [show ((fun c => TagQuery.matchesTag (.strict a n) c) ∘ setNS a) = (fun c => c.name == n) from ?_]
  · rfl
  · funext c
    simp [TagQuery.matchesTag]

theorem get_element_text_setNS (a : String) (oe : Option Element) (n : String) :
    get_element_text (oe.map (setNS a)) (.anyNS n) = get_element_text oe (.anyNS n) := by
  cases oe with
  | none => rfl
  | some e =>
    simp only [Option.map_some', get_element_text, find_anyNS_setNS a e n,
      find_anyNS_eq_findByName e n]
    cases h : e.findByName n with
    | none => rfl
    | some child => simp [setNS_text]

/-- Trackpoint-field extraction only reads local names and text, so it is
invariant under re-namespacing the element. -/
theorem extract_attribute_setNS (d : AttributeNestingLevel) :
    ∀ (oe : Option Element) (a : String),
      extract_attribute (oe.map (setNS a)) d = extract_attribute oe d := by
  refine extract_headers.induct
    (fun d => ∀ oe a, extract_attribute (oe.map (setNS a)) d = extract_attribute oe d)
    (fun v => ∀ oe a key,
      extract_attribute_value (oe.map (setNS a)) key v = extract_attribute_value oe key v)
    ?_ ?_ ?_ ?_ d
  · intro sub ih oe a key
    cases oe with
    | none => simp [extract_attribute_value, ih none a]
    | some e =>
      simp only [Option.map_some', extract_attribute_value, find_anyNS_setNS a e key,
        find_anyNS_eq_findByName e key]
      exact ih (e.findByName key) a
  · intro col oe a key
    simp [extract_attribute_value, get_element_text_setNS]
  · intro oe a
    rfl
  · intro k v rest ih1 ih2 oe a
    simp [extract_attribute, ih1, ih2]

theorem subtree_setNS (e : Element) :
    ∀ a, (setNS a e).subtree = e.subtree.map (setNS a) := by
  refine Element.subtree.induct
    (fun e => ∀ a, (setNS a e).subtree = e.subtree.map (setNS a))
    (fun l => ∀ a, Element.subtreeAll (setNSAll a l) = (Element.subtreeAll l).map (setNS a))
    ?_ ?_ ?_ e
  · intro ns nm t ch ih a
    simp [setNS, Element.subtree, ih a]
  · intro a
    rfl
  · intro c cs ih1 ih2 a
    simp [setNSAll, Element.subtreeAll, ih1 a, ih2 a]

/-- On a uniformly re-namespaced element, a strict `iter` in that
namespace is a local-name traversal of the skeleton. -/
theorem iter_strict_setNS (a : String) (e : Element) (n : String) :
    (setNS a e).iter (.strict a n) = (e.subtreeByName n).map (setNS a) := by
  simp only [Element.iter, subtree_setNS e a, List.filter_map, Element.subtreeByName]
  rw [show ((fun x => TagQuery.matchesTag (.strict a n) x) ∘ setNS a) = (fun x => x.name == n) from ?_]
  · funext c
    simp [TagQuery.matchesTag]

theorem extract_trackpoint_data_setNS (a : String) (tp : Element) :
    extract_trackpoint_data (some (setNS a tp)) = extract_trackpoint_data (some tp) := by
  have h := extract_attribute_setNS attributes (some tp) a
  simpa [extract_trackpoint_data] using h

theorem row_map_setNS (a : String) (l : List Element) :
    List.map ((fun tp => String.intercalate "," (extract_trackpoint_data (some tp))) ∘ setNS a) l =
      List.map (fun tp => String.intercalate "," (extract_trackpoint_data (some tp))) l := by
  apply List.map_congr_left
  intro x hx
  simp [Function.comp, extract_trackpoint_data_setNS]

/-- The lines a run writes depend only on the document's skeleton (local
names, text, structure), never on the namespace the document's elements
uniformly live under. -/
theorem processTree_setNS (doc : Element) (a : String) :
    (processTree (setNS a doc)).fileLines = skeletonLines doc := by
  simp only [processTree, skeletonLines, setNS_ns, setNS_name,
    find_strict_setNS a doc "Activities"]
  by_cases h0 : (doc.name != "TrainingCenterDatabase") = true
  · simp [h0, RunOutcome.fileLines]
  · simp only [h0, if_false]
    cases hA : doc.findByName "Activities" with
    | none => simp [RunOutcome.fileLines]
    | some acts =>
      simp only [Option.map_some']
      rw [setNS_children]
      simp only [List.length_map, find_strict_setNS a acts "Activity"]
      by_cases hLen : (acts.children.length == 0) = true
      · simp [hLen, RunOutcome.fileLines]
      · simp only [hLen, if_false]
        cases hB : acts.findByName "Activity" with
        | none => simp [RunOutcome.fileLines]
        | some act =>
          simp only [Option.map_some']
          rw [setNS_children]
          simp only [List.length_map]
          by_cases hLen2 : (act.children.length == 0) = true
          · simp [hLen2, RunOutcome.fileLines]
          · simp only [hLen2, if_false, RunOutcome.fileLines]
            simp [iter_strict_setNS, List.flatMap_map, row_map_setNS]

/-- C9 — two input documents identical except that one places all its
elements under namespace `a` and the other under namespace `b` (possibly
`""`, i.e. no namespace) produce identical output lines — in particular
identical data rows: trackpoint-field extraction matches children by
local name only, and the strict root-derived lookups re-derive the
namespace from the root, so the whole run is invariant. -/
theorem c9_namespace_invariance (doc : Element) (a b : String) :
    (processTree (setNS a doc)).fileLines = (processTree (setNS b doc)).fileLines := by
  rw [processTree_setNS, processTree_setNS]
